import Mathlib

/-!
Verification development for the hosting-subscription storefront in
`src/app.js`: display-status derivation, the expiration sweeper, renewal,
price validation, payment-check provisioning, deprovisioning, the
reconciliation pass and the public order view, shallowly embedded.
Timestamps are modelled as integer milliseconds, matching the
`Date.getTime()` values the code computes with.
-/

namespace WebPanel

/-- Milliseconds in one day, the `24 * 60 * 60 * 1000` factor used
throughout `src/app.js`. -/
def dayMs : Int := 86400000

/-- Grace period in days before an expired record is deleted
(`AUTO_DELETE_AFTER_DAYS`, src/app.js:52, default 7). -/
def AUTO_DELETE_AFTER_DAYS : Int := 7

/-- Nested `panel_data` of a stored subscription record, restricted to the
fields the lifecycle code reads: the remote server id it tracks and the
expiry timestamp (`new Date(p.panel_data.expires_at).getTime()`). -/
structure SubPanelData where
  server_id : Nat
  expires_at : Int
  deriving DecidableEq, Repr

/-- A stored subscription record (one entry of the persisted list, id not
equal to the settings sentinel).  Every record created by provisioning,
by the admin create path or by the reconciler import carries `panel_data`,
so it is modelled as a required field. -/
structure Sub where
  id : String
  username : String
  product_name : String
  days : Int
  status : String
  suspend_by : Option String
  panel_data : SubPanelData
  deriving DecidableEq, Repr

/-- Display status codes assigned by the admin reconciliation read
(src/app.js:551-581). -/
inductive StatusCode
  | active
  | suspended
  | adminLocked
  | expiredRunning
  deriving DecidableEq, Repr

/-- Days left before expiry: `Math.ceil((expiresAt - now) / (1000*60*60*24))`
(src/app.js:549). -/
def daysLeft (expiresAt now : Int) : Int :=
  ⌈((expiresAt - now : Int) : ℚ) / (dayMs : ℚ)⌉

/-- Status derivation of the admin reconciliation read (src/app.js:557-581)
as written: branch on the remote suspend flag first, inside it on the local
`suspend_by` marker, otherwise on the computed days left. -/
def deriveStatus (isRealSuspended : Bool) (suspendBy : Option String)
    (dLeft : Int) : StatusCode :=
  if isRealSuspended then
    if suspendBy = some "admin" then .adminLocked else .suspended
  else
    if dLeft ≤ 0 then .expiredRunning else .active

/-- Full display status of one enriched server row, composing the days-left
computation with the branch structure (src/app.js:549-581). -/
def adminDisplayStatus (isRealSuspended : Bool) (suspendBy : Option String)
    (expiresAt now : Int) : StatusCode :=
  deriveStatus isRealSuspended suspendBy (daysLeft expiresAt now)

/-- Which display statuses increment the `stats.suspended` counter, i.e.
count as suspended (src/app.js:562, 567). -/
def countsSuspended : StatusCode → Bool
  | .adminLocked => true
  | .suspended => true
  | _ => false

/-- The priority table of spec section 4.1, written as a strict priority
chain over the same four inputs, for comparison with the code branch
structure. -/
def statusPriorityTable (isRealSuspended : Bool) (suspendBy : Option String)
    (expiresAt now : Int) : StatusCode :=
  if isRealSuspended = true ∧ suspendBy = some "admin" then .adminLocked
  else if isRealSuspended = true then .suspended
  else if daysLeft expiresAt now ≤ 0 then .expiredRunning
  else .active

/-- C1: the displayed status is a pure function of (remote suspend flag,
`suspend_by`, `expires_at`, now) equal to the section 4.1 priority chain,
with the third rule firing exactly when `ceil((expires_at - now) / 1 day)`
is at most zero; and swapping `suspend_by` among admin/auto/absent while
holding the other inputs fixed never changes whether the row counts as
suspended. -/
theorem c1_status_derivation_priority_and_label_only :
    (∀ r sb e n, adminDisplayStatus r sb e n = statusPriorityTable r sb e n) ∧
    (∀ r sb sb' e n,
      countsSuspended (adminDisplayStatus r sb e n)
        = countsSuspended (adminDisplayStatus r sb' e n)) := by
  constructor
  · intro r sb e n
    cases r <;>
      simp [adminDisplayStatus, deriveStatus, statusPriorityTable]
  · intro r sb sb' e n
    cases r <;>
      by_cases h : sb = some "admin" <;>
        by_cases h' : sb' = some "admin" <;>
          simp [adminDisplayStatus, deriveStatus, countsSuspended, h, h']

/-! ## Expiration sweeper (src/app.js:793-844) -/

/-- Treatment of one stored record inside a sweeper tick
(src/app.js:802-830).  Returns the updated record, whether a remote
suspend call was issued, and whether the record was queued for deletion.
`suspendOk` is the outcome the remote suspend call would have; on failure
the `catch` leaves the record untouched.  The `continue` for
`suspend_by === 'admin'` is the first branch. -/
def sweepItem (now : Int) (suspendOk : Bool) (s : Sub) : Sub × Bool × Bool :=
  if s.suspend_by = some "admin" then (s, false, false)
  else
    let expireTime := s.panel_data.expires_at
    let daysExpired := (now - expireTime).fdiv dayMs
    let afterSuspend : Sub × Bool :=
      if expireTime < now ∧ s.suspend_by ≠ some "auto" then
        (if suspendOk then ({ s with suspend_by := some "auto" }, true)
         else (s, true))
      else (s, false)
    let queued : Bool :=
      if expireTime < now ∧ daysExpired ≥ AUTO_DELETE_AFTER_DAYS then true
      else false
    (afterSuspend.1, afterSuspend.2, queued)

/-- A full sweeper tick over the stored list (src/app.js:793-844): the
suspend pass runs in index order, deletion indices are collected in the
same loop, and the reverse-order splice afterwards removes exactly the
queued entries whose remote deprovisioning (`deleteOk`) reported success.
`i` is the index of the head of the remaining list. -/
def sweepTick (now : Int) (suspendOk deleteOk : Nat → Bool) :
    Nat → List Sub → List Sub
  | _, [] => []
  | i, s :: rest =>
    let r := sweepItem now (suspendOk i) s
    if r.2.2 = true ∧ deleteOk i = true then
      sweepTick now suspendOk deleteOk (i + 1) rest
    else
      r.1 :: sweepTick now suspendOk deleteOk (i + 1) rest

/-- C2: a record whose `suspend_by` is `"admin"` is skipped entirely by the
sweeper: no suspend call is issued, the record is not modified, it is not
queued for deletion, and it survives every tick in the stored list,
regardless of how far past expiry it is. -/
theorem c2_sweeper_skips_admin_locked :
    (∀ (now : Int) (ok : Bool) (s : Sub), s.suspend_by = some "admin" →
      sweepItem now ok s = (s, false, false)) ∧
    (∀ (now : Int) (sok dok : Nat → Bool) (i : Nat) (db : List Sub)
      (s : Sub), s ∈ db → s.suspend_by = some "admin" →
      s ∈ sweepTick now sok dok i db) := by
  have hitem : ∀ (now : Int) (ok : Bool) (s : Sub),
      s.suspend_by = some "admin" → sweepItem now ok s = (s, false, false) := by
    intro now ok s h
    simp [sweepItem, h]
  refine ⟨hitem, ?_⟩
  intro now sok dok i db
  induction db generalizing i with
  | nil => intro s hs; cases hs
  | cons hd tl ih =>
    intro s hs hadmin
    rcases List.mem_cons.mp hs with rfl | hs
    · have := hitem now (sok i) s hadmin
      simp only [sweepTick, this]
      simp
    · simp only [sweepTick]
      split
      · exact ih (i + 1) s hs hadmin
      · exact List.mem_cons_of_mem _ (ih (i + 1) s hs hadmin)

/-- A concrete admin-locked record, expired long ago, for the C2 witness. -/
def exampleAdminSub : Sub :=
  { id := "ORDER-1", username := "alice", product_name := "Panel 1GB RAM",
    days := 30, status := "active", suspend_by := some "admin",
    panel_data := { server_id := 11, expires_at := 0 } }

/-- C2 witness: the concrete admin-locked record, expired for over a year,
is untouched and survives a tick. -/
theorem c2_sweeper_skips_admin_locked_witness :
    sweepItem 40000000000 true exampleAdminSub = (exampleAdminSub, false, false) ∧
    exampleAdminSub ∈ sweepTick 40000000000 (fun _ => true) (fun _ => true) 0
      [exampleAdminSub] :=
  ⟨c2_sweeper_skips_admin_locked.1 40000000000 true _ rfl,
   c2_sweeper_skips_admin_locked.2 40000000000 (fun _ => true) (fun _ => true) 0 _ _
     (List.mem_singleton.mpr rfl) rfl⟩

/-- C5 counterexample: the claim as stated asserts that on a tick with
`expires_at < now` and `suspend_by != "auto"` a remote suspend call is
issued; the concrete admin-locked record is expired and not `"auto"`, yet
the sweeper issues no call (`continue` fires first, src/app.js:805). -/
theorem c5_counterexample_admin_skipped_not_suspended :
    exampleAdminSub.panel_data.expires_at < 86400000 ∧
    exampleAdminSub.suspend_by ≠ some "auto" ∧
    (sweepItem 86400000 true exampleAdminSub).2.1 = false := by
  refine ⟨by decide, by decide, ?_⟩
  simp [sweepItem, exampleAdminSub]

/-- C5 (amended): for a record that is expired, not already `"auto"` and
not admin-locked, the tick issues a remote suspend call, sets
`suspend_by = "auto"` only on success and leaves the record unchanged on
failure; a record already marked `"auto"` gets no call and no change; and
after a successful pass, a later tick is a no-op for the suspend state. -/
theorem c5_sweeper_suspends_at_most_once (now now2 : Int) (ok ok2 : Bool)
    (s : Sub) :
    (s.panel_data.expires_at < now → s.suspend_by ≠ some "auto" →
      s.suspend_by ≠ some "admin" →
      (sweepItem now ok s).2.1 = true ∧
      (ok = true → (sweepItem now ok s).1.suspend_by = some "auto") ∧
      (ok = false → (sweepItem now ok s).1 = s)) ∧
    (s.suspend_by = some "auto" →
      (sweepItem now ok s).2.1 = false ∧ (sweepItem now ok s).1 = s) ∧
    (s.panel_data.expires_at < now →
      (sweepItem now2 ok2 (sweepItem now true s).1).2.1 = false ∧
      (sweepItem now2 ok2 (sweepItem now true s).1).1
        = (sweepItem now true s).1) := by
  refine ⟨?_, ?_, ?_⟩
  · intro hexp hauto hadmin
    refine ⟨?_, ?_, ?_⟩
    · cases ok <;> simp [sweepItem, hadmin, hexp, hauto]
    · intro hok
      subst hok
      simp [sweepItem, hadmin, hexp, hauto]
    · intro hok
      subst hok
      simp [sweepItem, hadmin, hexp, hauto]
  · intro hauto
    have hadmin : s.suspend_by ≠ some "admin" := by simp [hauto]
    constructor <;> simp [sweepItem, hadmin, hauto]
  · intro hexp
    by_cases hadmin : s.suspend_by = some "admin"
    · constructor <;> simp [sweepItem, hadmin]
    · by_cases hauto : s.suspend_by = some "auto"
      · constructor <;> simp [sweepItem, hadmin, hauto]
      · have h1 : (sweepItem now true s).1 = { s with suspend_by := some "auto" } := by
          simp [sweepItem, hadmin, hexp, hauto]
        rw [h1]
        constructor <;> simp [sweepItem]

/-- A concrete unmarked record used by the C5 witness, expired by eight
days at `now = 8 * dayMs`. -/
def exampleUnmarkedSub : Sub :=
  { id := "ORDER-2", username := "bob", product_name := "Panel 2GB RAM",
    days := 30, status := "active", suspend_by := none,
    panel_data := { server_id := 12, expires_at := 0 } }

/-- C5 witness: the amended theorem applied to the concrete unmarked
expired record at a concrete tick. -/
theorem c5_sweeper_suspends_at_most_once_witness :
    ((sweepItem 691200000 true exampleUnmarkedSub).2.1 = true ∧
      (true = true →
        (sweepItem 691200000 true exampleUnmarkedSub).1.suspend_by = some "auto") ∧
      (true = false → (sweepItem 691200000 true exampleUnmarkedSub).1 = exampleUnmarkedSub)) ∧
    ((sweepItem 777600000 false (sweepItem 691200000 true exampleUnmarkedSub).1).2.1 = false ∧
      (sweepItem 777600000 false (sweepItem 691200000 true exampleUnmarkedSub).1).1
        = (sweepItem 691200000 true exampleUnmarkedSub).1) :=
  ⟨(c5_sweeper_suspends_at_most_once 691200000 777600000 true false
      exampleUnmarkedSub).1 (by decide) (by decide) (by decide),
   (c5_sweeper_suspends_at_most_once 691200000 777600000 true false
      exampleUnmarkedSub).2.2 (by decide)⟩

/-! ## Renewal workflow (src/app.js:1939-2033) -/

/-- Core state update of `renewPanel` (src/app.js:2000-2009): clamp the
current expiry to `now` if it is in the past, extend by `addDays` days,
accumulate the purchased `days`, and clear the suspend marker
(`delete server.suspend_by`). -/
def renewPanelCore (s : Sub) (now addDays : Int) : Sub :=
  let currentExpire :=
    if s.panel_data.expires_at < now then now else s.panel_data.expires_at
  { s with
    panel_data := { s.panel_data with
      expires_at := currentExpire + addDays * dayMs },
    days := s.days + addDays,
    suspend_by := none }

/-- C3: renewal by `d > 0` days sets the new expiry to
`max(current_expires_at, now) + d` days and clears `suspend_by`; hence it
is monotone (`new_expiry ≥ max(old_expiry, now)`), and a record already
expired by 10 days renewed with `days = 15` ends at `now + 15` days, not
at `old_expiry + 15` days. -/
theorem c3_renewal_clamps_base_and_clears_suspension (s : Sub) (now d : Int)
    (hd : 0 < d) :
    (renewPanelCore s now d).panel_data.expires_at
      = max s.panel_data.expires_at now + d * dayMs ∧
    (renewPanelCore s now d).suspend_by = none ∧
    max s.panel_data.expires_at now
      ≤ (renewPanelCore s now d).panel_data.expires_at ∧
    (s.panel_data.expires_at = now - 10 * dayMs → d = 15 →
      (renewPanelCore s now d).panel_data.expires_at = now + 15 * dayMs) := by
  have hbase : (if s.panel_data.expires_at < now then now
      else s.panel_data.expires_at) = max s.panel_data.expires_at now := by
    rcases lt_or_le s.panel_data.expires_at now with h | h
    · simp [h, max_eq_right h.le]
    · simp [not_lt.mpr h, max_eq_left h]
  refine ⟨?_, rfl, ?_, ?_⟩
  · simp [renewPanelCore, hbase]
  · have hpos : 0 ≤ d * dayMs := by
      have : (0 : Int) ≤ dayMs := by decide
      exact mul_nonneg hd.le this
    simp only [renewPanelCore, hbase]
    omega
  · intro hexp hd15
    subst hd15
    have hlt : s.panel_data.expires_at < now := by
      rw [hexp]
      have : (0 : Int) < 10 * dayMs := by decide
      omega
    simp [renewPanelCore, hlt]

/-- C3 witness: the renewal theorem applied to the concrete record expired
by 10 days (`now = 20 * dayMs`, `expires_at = 10 * dayMs`) with 15 days
requested. -/
theorem c3_renewal_clamps_base_and_clears_suspension_witness :
    (renewPanelCore
        { id := "ORDER-3", username := "carol", product_name := "Panel 3GB RAM",
          days := 30, status := "active", suspend_by := some "auto",
          panel_data := { server_id := 13, expires_at := 864000000 } }
        1728000000 15).panel_data.expires_at
      = 1728000000 + 15 * dayMs ∧
    (renewPanelCore
        { id := "ORDER-3", username := "carol", product_name := "Panel 3GB RAM",
          days := 30, status := "active", suspend_by := some "auto",
          panel_data := { server_id := 13, expires_at := 864000000 } }
        1728000000 15).suspend_by = none := by
  have h := c3_renewal_clamps_base_and_clears_suspension
    { id := "ORDER-3", username := "carol", product_name := "Panel 3GB RAM",
      days := 30, status := "active", suspend_by := some "auto",
      panel_data := { server_id := 13, expires_at := 864000000 } }
    1728000000 15 (by decide)
  exact ⟨h.2.2.2 (by decide) rfl, h.2.1⟩

/-! ## Price calculator (src/app.js:953-999)

The JavaScript computation `Math.ceil((basePrice / 30) * days)` runs in
IEEE-754 double precision: one correctly rounded division, one correctly
rounded multiplication, then an exact ceiling.  The rounding is modelled
exactly over the rationals. -/

/-- Whether `2 ^ k ≤ n / d`, for a nonnegative fraction `n / d` with
`d ≠ 0`, in integer arithmetic. -/
def pow2leFrac (n d : Nat) (k : Int) : Bool :=
  if 0 ≤ k then d * 2 ^ k.toNat ≤ n else d ≤ n * 2 ^ (-k).toNat

/-- Largest exponent `e` in `[-64, 64]` with `2 ^ e ≤ n / d` (the binade
of a positive fraction; every value arising in the price computation lies
well inside this range). -/
def binadeExpFrac (n d : Nat) : Int :=
  (List.range 129).foldl
    (fun acc i =>
      if pow2leFrac n d ((i : Int) - 64) then (i : Int) - 64 else acc)
    (-64)

/-- Round the fraction `n / d` to the nearest integer, ties to even, the
IEEE-754 default rounding. -/
def rneFrac (n d : Nat) : Nat :=
  let q := n / d
  let r := n % d
  if 2 * r < d then q
  else if d < 2 * r then q + 1
  else if q % 2 = 0 then q else q + 1

/-- Significand of the double nearest to `n / d` for binade `e`: the
fraction scaled to `52 - e` fractional bits, rounded to nearest even. -/
def mantissaOfFrac (n d : Nat) (e : Int) : Nat :=
  if 0 ≤ 52 - e then rneFrac (n * 2 ^ (52 - e).toNat) d
  else rneFrac n (d * 2 ^ (e - 52).toNat)

/-- Round the nonnegative fraction `n / d` to the nearest IEEE-754 double
(round-to-nearest, ties-to-even, 53-bit significand; no overflow or
subnormals in the modelled range), represented as a significand and
binade pair with value `m * 2 ^ (e - 52)`. -/
def roundFrac (n d : Nat) : Nat × Int :=
  let e := binadeExpFrac n d
  (mantissaOfFrac n d e, e)

/-- The price the middleware computes (src/app.js:972-974) in JavaScript
double arithmetic: `pricePerDay = basePrice / 30` is one correctly
rounded division, `pricePerDay * days` one correctly rounded
multiplication, and `Math.ceil` is exact on the result. -/
def calculatedPrice (basePrice days : Nat) : Int :=
  let p1 := roundFrac basePrice 30
  let nd : Nat × Nat :=
    if 52 ≤ p1.2 then (p1.1 * days * 2 ^ (p1.2 - 52).toNat, 1)
    else (p1.1 * days, 2 ^ (52 - p1.2).toNat)
  let p2 := roundFrac nd.1 nd.2
  if 52 ≤ p2.2 then ((p2.1 * 2 ^ (p2.2 - 52).toNat : Nat) : Int)
  else (((p2.1 + 2 ^ (52 - p2.2).toNat - 1) / 2 ^ (52 - p2.2).toNat : Nat) : Int)

/-- The claim formula `ceil((B / 30) * d)` read in exact arithmetic. -/
def exactCalculatedPrice (basePrice days : Nat) : Int :=
  ⌈((basePrice : ℚ) / 30) * (days : ℚ)⌉

/-- Decision of the `validatePrice` middleware (src/app.js:976-990).
`amountTruthy` is the JavaScript truthiness of `req.body.amount` (a
numeric `0`, an empty string or an absent field are falsy and skip the
check entirely); `amount` is `parseInt(req.body.amount)`. -/
inductive PriceCheck where
  | pass (price : Int)
  | reject (expected received : Int)
  deriving DecidableEq, Repr

/-- The middleware decision as a function of the tier base price, the
requested days, and the submitted amount. -/
def validatePriceCheck (basePrice days : Nat) (amountTruthy : Bool)
    (amount : Int) : PriceCheck :=
  let c := calculatedPrice basePrice days
  if amountTruthy = true ∧ amount ≠ c then .reject c amount
  else .pass c

/-- Default 30-day base prices of the eight known tiers
(src/app.js:963-970). -/
def defaultTierPrices : List Nat :=
  [3000, 5000, 7000, 9000, 11000, 14000, 18000, 30000]

/-- C4 counterexample: with a configured base price of 31 the double
rounding makes `Math.ceil((31 / 30) * 30)` evaluate to 32, not the exact
`ceil((31 / 30) * 30) = 31` the claim states (so `calculate(tier, 30)`
differs from the base price); and a submitted amount of `0` is falsy, so
the middleware passes it through without the rejection the claim
requires. -/
theorem c4_counterexample_double_rounding_and_falsy_amount :
    calculatedPrice 31 30 = 32 ∧
    exactCalculatedPrice 31 30 = 31 ∧
    validatePriceCheck 3000 30 false 0 = .pass 3000 := by
  refine ⟨by decide, ?_, by decide⟩
  unfold exactCalculatedPrice
  norm_num

/-- C4 (amended): the middleware computes
`calculated_price = ceil((B / 30) * d)` in double precision; a truthy
submitted amount must equal it exactly or the request is rejected with
the expected value returned; and for each of the eight default tier
prices the 30-day price equals the base price exactly (an order amount of
4999 for a 30-day tier priced 3000 is rejected with expected 3000). -/
theorem c4_price_validation (B d : Nat) (a : Int) :
    (validatePriceCheck B d true a = .pass (calculatedPrice B d)
      ↔ a = calculatedPrice B d) ∧
    (a ≠ calculatedPrice B d →
      validatePriceCheck B d true a = .reject (calculatedPrice B d) a) ∧
    (∀ p ∈ defaultTierPrices, calculatedPrice p 30 = p) ∧
    validatePriceCheck 3000 30 true 4999 = .reject 3000 4999 := by
  refine ⟨?_, ?_, by decide, by decide⟩
  · constructor
    · intro h
      by_contra hne
      simp [validatePriceCheck, hne] at h
    · intro h
      simp [validatePriceCheck, h]
  · intro h
    simp [validatePriceCheck, h]

/-- C4 witness: the amended theorem applied at the 4999-for-3000 scenario
and at the 5000 default tier price. -/
theorem c4_price_validation_witness :
    validatePriceCheck 3000 30 true 4999
      = .reject (calculatedPrice 3000 30) 4999 ∧
    calculatedPrice 5000 30 = 5000 :=
  ⟨(c4_price_validation 3000 30 4999).2.1 (by decide),
   (c4_price_validation 3000 30 4999).2.2.1 5000 (by decide)⟩

/-! ## Orders and payment checks (src/app.js:1001-1448) -/

/-- Resource display block of a provisioned panel
(src/app.js:1339-1346). -/
structure SpecsDisplay where
  ram : String
  disk : String
  cpu : String
  ram_raw : String
  disk_raw : String
  cpu_raw : String
  deriving DecidableEq, Repr

/-- `panel_data` attached to an order once provisioning succeeded
(src/app.js:1328-1351), credential fields included. -/
structure OrderPanelData where
  username : String
  password : String
  email : String
  server_id : Nat
  server_name : String
  expires_at : String
  specs : SpecsDisplay
  deriving DecidableEq, Repr

/-- An in-memory order of the `panelsStorage` cache (src/app.js:1033-1047;
the password field is carried by the admin-created entries). -/
structure Order where
  order_id : String
  username : String
  product_name : String
  amount : Int
  days : Int
  status : String
  created_at : String
  completed_at : Option String
  password : String
  type : String
  panel_data : Option OrderPanelData
  panel_error : Option String
  deriving DecidableEq, Repr

/-- One `GET /api/check-payment` evaluation for a cached order
(src/app.js:1106-1167), given the gateway verdict `txCompleted` and an
oracle for the provisioning/renewal workflow the endpoint would run
(`some pd` means the workflow returned `pd`, `none` means it threw);
`nowIso` abstracts `new Date().toISOString()`.  Returns the updated
order, the `panel_data` field of the JSON response, and whether the
workflow was invoked. -/
def checkPaymentStep (o : Order) (txCompleted : Bool)
    (workflow : Option OrderPanelData) (nowIso : String) :
    Order × Option OrderPanelData × Bool :=
  if txCompleted = true ∧ o.panel_data = none then
    match workflow with
    | some pd =>
      ({ o with panel_data := some pd, status := "completed",
                completed_at := some nowIso }, some pd, true)
    | none =>
      ({ o with status := "completed", completed_at := some nowIso,
                panel_error := some "workflow error" }, none, true)
  else
    match o.panel_data with
    | some pd => (o, some pd, false)
    | none => (o, none, false)

/-- One `POST /api/manual-check` evaluation (src/app.js:1391-1430): same
oracle shape, but the stored `panel_data` is only consulted inside the
`transaction.status === 'completed'` branch; on any other verdict the
responded `panel_data` stays `null`. -/
def manualCheckStep (o : Order) (txCompleted : Bool)
    (workflow : Option OrderPanelData) (nowIso : String) :
    Order × Option OrderPanelData × Bool :=
  if txCompleted = true then
    match o.panel_data with
    | none =>
      match workflow with
      | some pd =>
        ({ o with panel_data := some pd, status := "completed",
                  completed_at := some nowIso }, some pd, true)
      | none =>
        ({ o with status := "completed", completed_at := some nowIso,
                  panel_error := some "workflow error" }, none, true)
    | some pd => (o, some pd, false)
  else
    (o, none, false)

/-- The two payment-check operations of the storefront. -/
def paymentCheckSteps :
    List (Order → Bool → Option OrderPanelData → String →
      Order × Option OrderPanelData × Bool) :=
  [checkPaymentStep, manualCheckStep]

/-- A concrete completed order with stored panel data, for C6. -/
def exampleCompletedOrder : Order :=
  { order_id := "INV-100", username := "dave", product_name := "Panel 1GB RAM",
    amount := 3000, days := 30, status := "completed",
    created_at := "2024-01-01T00:00:00Z",
    completed_at := some "2024-01-01T00:05:00Z", password := "pw123456",
    type := "new",
    panel_data := some
      { username := "dave", password := "pw123456", email := "dave@gmail.com",
        server_id := 21, server_name := "Dave Server",
        expires_at := "2024-01-31T00:00:00Z",
        specs := { ram := "1.5GB", disk := "3GB", cpu := "100%",
                   ram_raw := "1500", disk_raw := "3000", cpu_raw := "100" } },
    panel_error := none }

/-- C6 counterexample: the claim as stated says that once `panel_data` is
non-null every subsequent payment check returns the stored `panel_data`;
but `POST /api/manual-check` with a gateway verdict other than
`completed` responds with a null `panel_data` even though the order holds
one (the stored record itself is left unchanged and nothing is
provisioned). -/
theorem c6_counterexample_manual_check_pending_returns_null :
    exampleCompletedOrder.panel_data ≠ none ∧
    (manualCheckStep exampleCompletedOrder false none "t").2.1 = none ∧
    (manualCheckStep exampleCompletedOrder false none "t").1
      = exampleCompletedOrder := by
  refine ⟨by decide, ?_, ?_⟩ <;> simp [manualCheckStep]

/-- C6 (amended): a payment check invokes the provisioning/renewal
workflow only when the gateway reports completed and `panel_data` is
null; once `panel_data` is non-null no check modifies it or provisions
again, `GET /api/check-payment` always responds with the stored value,
and `POST /api/manual-check` responds with it exactly when the gateway
reports completed; composing any two checks never provisions twice, so at
most one hosting account is created per order. -/
theorem c6_provisioning_at_most_once :
    (∀ (o : Order) (tx : Bool) (w : Option OrderPanelData) (t : String),
      ((checkPaymentStep o tx w t).2.2 = true → tx = true ∧ o.panel_data = none) ∧
      ((manualCheckStep o tx w t).2.2 = true → tx = true ∧ o.panel_data = none)) ∧
    (∀ (o : Order) (tx : Bool) (w : Option OrderPanelData) (t : String)
      (pd : OrderPanelData), o.panel_data = some pd →
      (checkPaymentStep o tx w t).1 = o ∧
      (checkPaymentStep o tx w t).2.1 = some pd ∧
      (checkPaymentStep o tx w t).2.2 = false ∧
      (manualCheckStep o tx w t).1 = o ∧
      (manualCheckStep o tx w t).2.2 = false ∧
      (tx = true → (manualCheckStep o tx w t).2.1 = some pd)) ∧
    (∀ f ∈ paymentCheckSteps, ∀ g ∈ paymentCheckSteps,
      ∀ (o : Order) (tx : Bool) (pd : OrderPanelData) (t : String)
        (tx2 : Bool) (w2 : Option OrderPanelData) (t2 : String),
        (f o tx (some pd) t).2.2 = true →
        (g (f o tx (some pd) t).1 tx2 w2 t2).2.2 = false) := by
  have hcp : ∀ (o : Order) (tx : Bool) (w : Option OrderPanelData) (t : String),
      (checkPaymentStep o tx w t).2.2 = true → tx = true ∧ o.panel_data = none := by
    intro o tx w t h
    by_cases hc : tx = true ∧ o.panel_data = none
    · exact hc
    · exfalso
      revert h
      rcases hpd : o.panel_data with _ | pd
      · have htx : ¬tx = true := fun htx => hc ⟨htx, hpd⟩
        simp [checkPaymentStep, hpd, htx]
      · simp [checkPaymentStep, hc, hpd]
  have hmc : ∀ (o : Order) (tx : Bool) (w : Option OrderPanelData) (t : String),
      (manualCheckStep o tx w t).2.2 = true → tx = true ∧ o.panel_data = none := by
    intro o tx w t h
    cases tx with
    | false => simp [manualCheckStep] at h
    | true =>
      refine ⟨rfl, ?_⟩
      rcases hpd : o.panel_data with _ | pd
      · rfl
      · simp [manualCheckStep, hpd] at h
  have hsome : ∀ (o : Order) (tx : Bool) (w : Option OrderPanelData) (t : String)
      (pd : OrderPanelData), o.panel_data = some pd →
      (checkPaymentStep o tx w t).1 = o ∧
      (checkPaymentStep o tx w t).2.1 = some pd ∧
      (checkPaymentStep o tx w t).2.2 = false ∧
      (manualCheckStep o tx w t).1 = o ∧
      (manualCheckStep o tx w t).2.2 = false ∧
      (tx = true → (manualCheckStep o tx w t).2.1 = some pd) := by
    intro o tx w t pd hpd
    have hne : ¬(tx = true ∧ o.panel_data = none) := by simp [hpd]
    cases tx <;>
      refine ⟨?_, ?_, ?_, ?_, ?_, ?_⟩ <;>
        simp [checkPaymentStep, manualCheckStep, hne, hpd]
  have hfst : ∀ (o : Order) (tx : Bool) (pd : OrderPanelData) (t : String),
      (checkPaymentStep o tx (some pd) t).2.2 = true →
      (checkPaymentStep o tx (some pd) t).1.panel_data = some pd := by
    intro o tx pd t h
    obtain ⟨htx, hpd⟩ := hcp o tx (some pd) t h
    simp [checkPaymentStep, htx, hpd]
  have hfst2 : ∀ (o : Order) (tx : Bool) (pd : OrderPanelData) (t : String),
      (manualCheckStep o tx (some pd) t).2.2 = true →
      (manualCheckStep o tx (some pd) t).1.panel_data = some pd := by
    intro o tx pd t h
    obtain ⟨htx, hpd⟩ := hmc o tx (some pd) t h
    subst htx
    simp [manualCheckStep, hpd]
  refine ⟨fun o tx w t => ⟨hcp o tx w t, hmc o tx w t⟩, hsome, ?_⟩
  intro f hf g hg o tx pd t tx2 w2 t2 hinv
  have hgnone : ∀ (o' : Order), o'.panel_data = some pd →
      (g o' tx2 w2 t2).2.2 = false := by
    intro o' hpd
    rcases List.mem_pair.mp hg with rfl | rfl
    · by_contra hne
      have := hcp o' tx2 w2 t2 (by revert hne; cases h : (checkPaymentStep o' tx2 w2 t2).2.2 <;> simp)
      rw [hpd] at this
      exact Option.noConfusion this.2
    · by_contra hne
      have := hmc o' tx2 w2 t2 (by revert hne; cases h : (manualCheckStep o' tx2 w2 t2).2.2 <;> simp)
      rw [hpd] at this
      exact Option.noConfusion this.2
  rcases List.mem_pair.mp hf with rfl | rfl
  · exact hgnone _ (hfst o tx pd t hinv)
  · exact hgnone _ (hfst2 o tx pd t hinv)

/-- C6 witness: the amended theorem applied to a fresh pending order that
gets provisioned once, and to the concrete completed order. -/
theorem c6_provisioning_at_most_once_witness :
    ((checkPaymentStep exampleCompletedOrder true none "t").2.2 = true →
      True ∧ exampleCompletedOrder.panel_data = none) ∧
    (checkPaymentStep exampleCompletedOrder true none "t").1
      = exampleCompletedOrder := by
  have h := c6_provisioning_at_most_once
  obtain ⟨pd, hpd⟩ : ∃ pd, exampleCompletedOrder.panel_data = some pd :=
    ⟨_, rfl⟩
  refine ⟨?_, (h.2.1 exampleCompletedOrder true none "t" pd hpd).1⟩
  intro hinv
  exact ⟨trivial, ((h.1 exampleCompletedOrder true none "t").1 hinv).2⟩

/-! ## Persistence and the renewal unsuspend call
(src/app.js:123-146, 455-467, 2012-2018) -/

/-- Outcome of the underlying GitHub contents PUT. -/
inductive StoreWriteOutcome where
  | ok
  | failed
  deriving DecidableEq, Repr

/-- `updateData` and `saveServerDatabase` (src/app.js:123-146, 455-467)
wrap the store write in try/catch blocks with empty handlers and return
normally whatever happened: a store-write failure is never observable to
the caller. -/
def saveServerDatabaseResult : StoreWriteOutcome → Except String Unit :=
  fun _ => .ok ()

/-- Control flow of `renewPanel` after the expiry update
(src/app.js:2012-2018): the remote unsuspend call is reached exactly when
`await saveServerDatabase(db)` returned without throwing. -/
def renewUnsuspendAttempted (w : StoreWriteOutcome) : Bool :=
  match saveServerDatabaseResult w with
  | .ok _ => true
  | .error _ => false

/-- C7: contrary to the claim, a failed store write does not stop the
renewal workflow from issuing the remote unsuspend call, because
`saveServerDatabase` swallows the failure and returns normally; the
remote side can end up unsuspended while storage still holds the
expired record. -/
theorem c7_unsuspend_attempted_despite_persist_failure :
    saveServerDatabaseResult .failed = .ok () ∧
    renewUnsuspendAttempted .failed = true :=
  ⟨rfl, rfl⟩

/-! ## Deprovisioning (src/app.js:727-791 and 1600-1714) -/

/-- Remote-call environment of one `deleteExpiredPanel` run:
`ownerLookup` is the owner id obtained by the initial server GET (`none`
if that call threw), the flags give the outcomes of the later remote
calls. -/
structure DeprovisionEnv where
  ownerLookup : Option Nat
  serverDeleteOk : Bool
  userCheckOk : Bool
  ownerIsAdmin : Bool
  ownerOtherServers : Nat
  ownerDeleteOk : Bool
  deriving DecidableEq, Repr

/-- Observable behaviour of one `deleteExpiredPanel` run. -/
structure DeprovisionTrace where
  serverDeleteAttempted : Bool
  ownerDeleteAttempted : Bool
  reportedSuccess : Bool
  deriving DecidableEq, Repr

/-- `deleteExpiredPanel` (src/app.js:727-791): the remote server DELETE
and the whole owner cleanup sit inside `if (ownerId)`, every remote
failure is swallowed by an inner catch, and the function returns `true`
unconditionally at the end. -/
def deleteExpiredPanelRun (env : DeprovisionEnv) : DeprovisionTrace :=
  match env.ownerLookup with
  | none =>
    { serverDeleteAttempted := false, ownerDeleteAttempted := false,
      reportedSuccess := true }
  | some _ =>
    { serverDeleteAttempted := true,
      ownerDeleteAttempted :=
        env.userCheckOk && !env.ownerIsAdmin && (env.ownerOtherServers == 0),
      reportedSuccess := true }

/-- Result of the remote server DELETE as the admin endpoint
distinguishes it. -/
inductive RemoteDeleteRes where
  | ok204
  | notFound404
  | err
  deriving DecidableEq, Repr

/-- Remote-call environment of one `POST /admin/api/panels/delete` run;
`localOwnerId` is the `panel_data.owner_id` fallback read from storage
when the remote owner lookup throws, `localFound` whether a stored record
matches the server id. -/
structure AdminDeleteEnv where
  remoteOwnerLookup : Option Nat
  localOwnerId : Option Nat
  serverDelete : RemoteDeleteRes
  userCheckOk : Bool
  ownerIsAdmin : Bool
  ownerOtherServers : Nat
  ownerDeleteOk : Bool
  localFound : Bool
  deriving DecidableEq, Repr

/-- Observable behaviour of one admin delete run. -/
structure AdminDeleteTrace where
  serverDeleteAttempted : Bool
  apiSuccess : Bool
  ownerCleanupRan : Bool
  localDeleted : Bool
  responseSuccess : Bool
  deriving DecidableEq, Repr

/-- `POST /admin/api/panels/delete/:serverId` (src/app.js:1600-1714): the
owner id falls back to local storage, the server DELETE is attempted
unconditionally, a 404 counts as success (`already absent`), the owner
cleanup runs only under `if (ownerId && apiSuccess)` with its failures
caught, the local record is spliced out when found, and the JSON response
carries `success: true` unconditionally. -/
def adminDeleteRun (env : AdminDeleteEnv) : AdminDeleteTrace :=
  let ownerId :=
    match env.remoteOwnerLookup with
    | some i => some i
    | none => env.localOwnerId
  let apiSuccess :=
    match env.serverDelete with
    | .ok204 => true
    | .notFound404 => true
    | .err => false
  { serverDeleteAttempted := true,
    apiSuccess := apiSuccess,
    ownerCleanupRan := ownerId.isSome && apiSuccess,
    localDeleted := env.localFound,
    responseSuccess := true }

/-- C8 counterexample: in `deleteExpiredPanel` a failed owner-id lookup
skips the remote server deletion entirely (contradicting `absence does
not abort deletion of the server itself`), and a run whose remote
deletion fails still reports success (contradicting `success iff the
local record was removed and the remote deletion succeeded or was a
no-op`). -/
theorem c8_counterexample_owner_lookup_gates_deletion :
    (deleteExpiredPanelRun
      { ownerLookup := none, serverDeleteOk := true, userCheckOk := true,
        ownerIsAdmin := false, ownerOtherServers := 0,
        ownerDeleteOk := true }).serverDeleteAttempted = false ∧
    (deleteExpiredPanelRun
      { ownerLookup := some 7, serverDeleteOk := false, userCheckOk := true,
        ownerIsAdmin := false, ownerOtherServers := 0,
        ownerDeleteOk := true }).reportedSuccess = true := by decide

/-- C8 (amended): in the sweeper's `deleteExpiredPanel` the remote server
deletion is attempted exactly when the owner-id lookup succeeded, and the
run reports success unconditionally; in the admin delete endpoint the
remote deletion is attempted even without an owner id, its success is
exactly `deleted or already absent (404)`, owner cleanup runs only after
that success, and the response reports overall success unconditionally,
so cleanup failures never change it. -/
theorem c8_deprovisioning_behaviour (env : DeprovisionEnv)
    (env2 env3 : AdminDeleteEnv) :
    (deleteExpiredPanelRun env).serverDeleteAttempted
      = env.ownerLookup.isSome ∧
    (deleteExpiredPanelRun env).reportedSuccess = true ∧
    (adminDeleteRun env2).serverDeleteAttempted = true ∧
    ((adminDeleteRun env2).apiSuccess = true ↔
      env2.serverDelete = .ok204 ∨ env2.serverDelete = .notFound404) ∧
    ((adminDeleteRun env2).ownerCleanupRan = true →
      (adminDeleteRun env2).apiSuccess = true) ∧
    (adminDeleteRun env2).responseSuccess = true ∧
    (adminDeleteRun env2).localDeleted = env2.localFound ∧
    (adminDeleteRun env2).responseSuccess = (adminDeleteRun env3).responseSuccess := by
  obtain ⟨ol, sdel, uch, oad, oos, odel⟩ := env
  obtain ⟨rol, lol, sd, uc2, oa2, oo2, od2, lf⟩ := env2
  refine ⟨?_, ?_, rfl, ?_, ?_, rfl, rfl, rfl⟩
  · cases ol <;> rfl
  · cases ol <;> rfl
  · cases sd <;> simp [adminDeleteRun]
  · intro h
    revert h
    cases sd <;> simp [adminDeleteRun]

/-- C8 witness: the amended theorem applied to concrete environments —
an expired-panel run with a failed owner lookup, and an admin run whose
server was already absent while its owner cleanup fails. -/
theorem c8_deprovisioning_behaviour_witness :
    (adminDeleteRun
      { remoteOwnerLookup := none, localOwnerId := some 3,
        serverDelete := .notFound404, userCheckOk := false,
        ownerIsAdmin := false, ownerOtherServers := 0,
        ownerDeleteOk := false, localFound := true }).apiSuccess = true ∧
    (deleteExpiredPanelRun
      { ownerLookup := none, serverDeleteOk := true, userCheckOk := true,
        ownerIsAdmin := false, ownerOtherServers := 0,
        ownerDeleteOk := true }).reportedSuccess = true :=
  ⟨((c8_deprovisioning_behaviour
      { ownerLookup := none, serverDeleteOk := true, userCheckOk := true,
        ownerIsAdmin := false, ownerOtherServers := 0, ownerDeleteOk := true }
      { remoteOwnerLookup := none, localOwnerId := some 3,
        serverDelete := .notFound404, userCheckOk := false,
        ownerIsAdmin := false, ownerOtherServers := 0,
        ownerDeleteOk := false, localFound := true }
      { remoteOwnerLookup := none, localOwnerId := some 3,
        serverDelete := .notFound404, userCheckOk := false,
        ownerIsAdmin := false, ownerOtherServers := 0,
        ownerDeleteOk := false, localFound := true }).2.2.2.1).mpr
      (Or.inr rfl),
   (c8_deprovisioning_behaviour
      { ownerLookup := none, serverDeleteOk := true, userCheckOk := true,
        ownerIsAdmin := false, ownerOtherServers := 0, ownerDeleteOk := true }
      { remoteOwnerLookup := none, localOwnerId := some 3,
        serverDelete := .notFound404, userCheckOk := false,
        ownerIsAdmin := false, ownerOtherServers := 0,
        ownerDeleteOk := false, localFound := true }
      { remoteOwnerLookup := none, localOwnerId := some 3,
        serverDelete := .notFound404, userCheckOk := false,
        ownerIsAdmin := false, ownerOtherServers := 0,
        ownerDeleteOk := false, localFound := true }).2.1⟩

/-! ## Reconciler orphan import (src/app.js:469-615) -/

/-- One entry of the remote server list as the reconciler consumes it. -/
structure RemoteServer where
  server_id : Nat
  name : String
  owner_id : Nat
  owner_username : String
  created_at : Int
  suspended : Bool
  deriving DecidableEq, Repr

/-- Synthetic record created for an orphan remote server
(src/app.js:512-539): id `AUTO-<serverId>`, default validity of 30 days
from the remote `created_at`, no suspend marker. -/
def syntheticEntry (r : RemoteServer) : Sub :=
  { id := "AUTO-" ++ toString r.server_id,
    username := r.owner_username,
    product_name := "Imported Server",
    days := 30,
    status := "active",
    suspend_by := none,
    panel_data := { server_id := r.server_id,
                    expires_at := r.created_at + 30 * dayMs } }

/-- The orphan-import effect of one `GET /admin` reconciliation pass
(src/app.js:489-599): fold over the remote list, appending a synthetic
entry whenever no stored record matches the remote server id; the flag
mirrors `isDatabaseUpdated`. -/
def reconcilePass (remotes : List RemoteServer) (db : List Sub) :
    List Sub × Bool :=
  remotes.foldl
    (fun acc r =>
      match acc.1.find? (fun p => p.panel_data.server_id == r.server_id) with
      | some _ => acc
      | none => (acc.1 ++ [syntheticEntry r], true))
    (db, false)

/-- One entry of the persisted document. -/
inductive StoredEntry where
  | sub (s : Sub)
  | settings
  deriving DecidableEq, Repr

/-- `saveServerDatabase` (src/app.js:455-467) persists the given list
with the settings sentinel appended. -/
def saveServerDatabaseDoc (data : List Sub) : List StoredEntry :=
  data.map .sub ++ [.settings]

/-- Observable ordering of the admin read: an optional persist followed
by the rendered response. -/
inductive AdminEvent where
  | persist (doc : List StoredEntry)
  | respond
  deriving DecidableEq, Repr

/-- Event trace of `GET /admin` after the enrichment loop
(src/app.js:598-611): one persist of the full list iff the pass marked it
dirty, then the response. -/
def adminReadEvents (remotes : List RemoteServer) (db : List Sub) :
    List AdminEvent :=
  let r := reconcilePass remotes db
  (if r.2 = true then [.persist (saveServerDatabaseDoc r.1)] else [])
    ++ [.respond]

/-- C9: a remote server with no matching stored record yields exactly one
synthetic record (days 30, expiry 30 days after the remote `created_at`),
and the full list plus the settings sentinel is persisted exactly once,
before the response; a remote server with a matching record adds nothing
and triggers no persist. -/
theorem c9_reconciler_orphan_import :
    (∀ (r : RemoteServer) (db : List Sub),
      (∀ s ∈ db, s.panel_data.server_id ≠ r.server_id) →
      reconcilePass [r] db = (db ++ [syntheticEntry r], true) ∧
      (syntheticEntry r).days = 30 ∧
      (syntheticEntry r).panel_data.expires_at
        = r.created_at + 30 * dayMs ∧
      adminReadEvents [r] db
        = [.persist (saveServerDatabaseDoc (db ++ [syntheticEntry r])),
           .respond] ∧
      StoredEntry.settings ∈ saveServerDatabaseDoc (db ++ [syntheticEntry r])) ∧
    (∀ (r : RemoteServer) (db : List Sub),
      (∃ s ∈ db, s.panel_data.server_id = r.server_id) →
      reconcilePass [r] db = (db, false) ∧
      adminReadEvents [r] db = [.respond]) := by
  constructor
  · intro r db hnone
    have hfind : db.find? (fun p => p.panel_data.server_id == r.server_id)
        = none := by
      rw [List.find?_eq_none]
      intro s hs
      simpa using hnone s hs
    have hpass : reconcilePass [r] db = (db ++ [syntheticEntry r], true) := by
      simp [reconcilePass, hfind]
    refine ⟨hpass, rfl, rfl, ?_, ?_⟩
    · simp [adminReadEvents, hpass]
    · simp [saveServerDatabaseDoc]
  · intro r db hsome
    have hfind : (db.find? (fun p => p.panel_data.server_id == r.server_id)).isSome := by
      rw [List.find?_isSome]
      obtain ⟨s, hs, hid⟩ := hsome
      exact ⟨s, hs, by simpa using hid⟩
    obtain ⟨v, hv⟩ := Option.isSome_iff_exists.mp hfind
    have hpass : reconcilePass [r] db = (db, false) := by
      simp [reconcilePass, hv]
    exact ⟨hpass, by simp [adminReadEvents, hpass]⟩

/-- C9 witness: one concrete orphan remote server against a one-record
store that tracks a different server id, and the same remote against a
store already tracking it. -/
theorem c9_reconciler_orphan_import_witness :
    reconcilePass
        [{ server_id := 42, name := "Ext", owner_id := 5,
           owner_username := "erin", created_at := 1000, suspended := false }]
        [exampleAdminSub]
      = ([exampleAdminSub] ++ [syntheticEntry
          { server_id := 42, name := "Ext", owner_id := 5,
            owner_username := "erin", created_at := 1000, suspended := false }],
         true) ∧
    reconcilePass
        [{ server_id := 11, name := "Ext", owner_id := 5,
           owner_username := "erin", created_at := 1000, suspended := false }]
        [exampleAdminSub]
      = ([exampleAdminSub], false) :=
  ⟨(c9_reconciler_orphan_import.1
      { server_id := 42, name := "Ext", owner_id := 5,
        owner_username := "erin", created_at := 1000, suspended := false }
      [exampleAdminSub] (by decide)).1,
   (c9_reconciler_orphan_import.2
      { server_id := 11, name := "Ext", owner_id := 5,
        owner_username := "erin", created_at := 1000, suspended := false }
      [exampleAdminSub] ⟨exampleAdminSub, by decide, by decide⟩).1⟩

/-! ## Public order view (src/app.js:1528-1572) -/

/-- The projected `panel_data` of the public order endpoint
(src/app.js:1540-1549). -/
structure SafePanelData where
  username : String
  server_id : Nat
  server_name : String
  expires_at : String
  specs : SpecsDisplay
  deriving DecidableEq, Repr

/-- The response body of `GET /api/order/:order_id`
(src/app.js:1551-1564). -/
structure OrderView where
  order_id : String
  username : String
  product_name : String
  amount : Int
  status : String
  created_at : String
  completed_at : Option String
  panel_data : Option SafePanelData
  panel_error : Option String
  deriving DecidableEq, Repr

/-- Projection performed by `GET /api/order/:order_id`: the stored
`panel_data` is reduced to exactly
{username, server_id, server_name, expires_at, specs}, and no password
field exists anywhere in the view. -/
def orderResponseOf (o : Order) : OrderView :=
  { order_id := o.order_id, username := o.username,
    product_name := o.product_name, amount := o.amount, status := o.status,
    created_at := o.created_at, completed_at := o.completed_at,
    panel_data := o.panel_data.map (fun pd =>
      { username := pd.username, server_id := pd.server_id,
        server_name := pd.server_name, expires_at := pd.expires_at,
        specs := pd.specs }),
    panel_error := o.panel_error }

/-- Blank out the top-level and nested password fields of an order. -/
def scrubPasswords (o : Order) : Order :=
  { o with
    password := "",
    panel_data := o.panel_data.map (fun pd => { pd with password := "" }) }

/-- C10: the public order view never depends on the stored passwords —
two orders that agree on everything except their `password` and
`panel_data.password` values produce identical responses, and any stored
`panel_data` appears in the response as exactly the five-field
projection. -/
theorem c10_order_view_independent_of_passwords (o1 o2 : Order)
    (h : scrubPasswords o1 = scrubPasswords o2) :
    orderResponseOf o1 = orderResponseOf o2 ∧
    (∀ pd, o1.panel_data = some pd →
      (orderResponseOf o1).panel_data = some
        { username := pd.username, server_id := pd.server_id,
          server_name := pd.server_name, expires_at := pd.expires_at,
          specs := pd.specs }) := by
  have key : ∀ o : Order, orderResponseOf (scrubPasswords o) = orderResponseOf o := by
    intro o
    cases hpd : o.panel_data <;>
      simp [orderResponseOf, scrubPasswords, hpd]
  constructor
  · rw [← key o1, ← key o2, h]
  · intro pd hpd
    simp [orderResponseOf, hpd]

/-- The concrete completed order with both password fields replaced, for
the C10 witness. -/
def exampleCompletedOrderAltPw : Order :=
  { exampleCompletedOrder with
    password := "other-secret",
    panel_data := some
      { username := "dave", password := "other-secret",
        email := "dave@gmail.com", server_id := 21,
        server_name := "Dave Server",
        expires_at := "2024-01-31T00:00:00Z",
        specs := { ram := "1.5GB", disk := "3GB", cpu := "100%",
                   ram_raw := "1500", disk_raw := "3000",
                   cpu_raw := "100" } } }

/-- C10 witness: the concrete completed order and a copy that differs
only in both password fields yield the same response. -/
theorem c10_order_view_independent_of_passwords_witness :
    orderResponseOf exampleCompletedOrder
      = orderResponseOf exampleCompletedOrderAltPw :=
  (c10_order_view_independent_of_passwords exampleCompletedOrder
    exampleCompletedOrderAltPw (by decide)).1

end WebPanel
